import Mathlib

/-!
Verification of the geometric element model of the `renovation` floor-plan renderer.

Points live in the real plane; every element's `draw` is embedded as the list of
draw primitives it hands to the matplotlib surface, with all geometric attributes
kept exactly as computed in the source.  Style-only attributes (colors, matplotlib
line widths) are omitted from primitives.  A Python constructor that can raise is
embedded as an `init` function returning `Option`; a constructor that only assigns
its arguments is embedded as an `init` function that always returns `some`.
-/

namespace Renovation

noncomputable section

/-- Conversion from degrees to radians, embedding Python's `math.radians`. -/
def rad (d : ℝ) : ℝ := d * (Real.pi / 180)

/-- A point of the drawing plane (coordinates in meters). -/
@[ext]
structure Pt where
  x : ℝ
  y : ℝ

/-- Componentwise addition of a point and a displacement. -/
def Pt.add (p q : Pt) : Pt := ⟨p.x + q.x, p.y + q.y⟩

/-- Rotation of a vector by `a` radians: the 2D rotation matrix
`[[cos a, -sin a], [sin a, cos a]]` applied to a column vector. -/
def rot (a : ℝ) (q : Pt) : Pt :=
  ⟨Real.cos a * q.x - Real.sin a * q.y, Real.sin a * q.x + Real.cos a * q.y⟩

/-- The point at distance `dist` from `p` in direction `angDeg` degrees; this is the
recurring source idiom `(p[0] + math.cos(math.radians(ang)) * dist, p[1] + ...)`. -/
def pointAt (p : Pt) (dist angDeg : ℝ) : Pt :=
  ⟨p.x + Real.cos (rad angDeg) * dist, p.y + Real.sin (rad angDeg) * dist⟩

/-- Content of a text primitive: either the decimal rendering of a number
(Python's `str(self.length)`, represented here by the number itself) or a
literal string supplied by the caller. -/
inductive TextContent where
  | ofReal (value : ℝ)
  | ofString (value : String)

/-- Draw primitives handed to the matplotlib surface.  `rect` is a `Rectangle`
patch (corner anchor, width, height, rotation in degrees about the anchor);
`arc` is an `Arc` patch (center, full width and height of the ellipse, rotation
in degrees, start and end parametric angles in degrees relative to the rotation);
`circle` is a `Circle` patch; `seg` is a two-point `ax.plot` call; `poly` is a
`Polygon` patch; `text` is an `ax.text` call (position, content, rotation in
degrees, font size). -/
inductive Primitive where
  | rect (anchor : Pt) (width height angDeg : ℝ) (filled : Bool)
  | arc (center : Pt) (width height angDeg theta1 theta2 : ℝ)
  | circle (center : Pt) (radius : ℝ) (filled : Bool)
  | seg (p q : Pt)
  | poly (vertices : List Pt) (filled : Bool)
  | text (position : Pt) (content : TextContent) (rotation fontSize : ℝ)

/-- Meters per inch, from `floor_plan.py`. -/
def METERS_PER_INCH : ℝ := 0.0254

/-- Angle constant, value 90, as defined in `src/renovation/elements.py`; the element
modules import the same name from `renovation.constants`. -/
def STRAIGHT_ANGLE_IN_DEGREES : ℝ := 90

/-- Modelled from the spec: the module `renovation/constants.py` is not among the
provided sources, so the value of `RIGHT_ANGLE_IN_DEGREES` (imported by
`lighting.py`) is missing from them.  The name denotes a right angle, and the
spec's Switch section describes the key stroke drawn at
`orientation_angle + RIGHT_ANGLE_IN_DEGREES / 2` as a 45-degree-class offset
from the orientation axis, so the value is 90. -/
def RIGHT_ANGLE_IN_DEGREES : ℝ := 90

/-! ### Wall (`elements/basic.py`) -/

structure Wall where
  anchor_point : Pt
  length : ℝ
  thickness : ℝ
  orientation_angle : ℝ

/-- The `Wall` constructor only assigns its arguments; it never raises. -/
def Wall.init (anchor_point : Pt) (length thickness orientation_angle : ℝ) : Option Wall :=
  some { anchor_point, length, thickness, orientation_angle }

def Wall.draw (w : Wall) : List Primitive :=
  [Primitive.rect w.anchor_point w.length w.thickness w.orientation_angle true]

/-! ### Window (`elements/basic.py`) -/

structure Window where
  anchor_point : Pt
  length : ℝ
  overall_thickness : ℝ
  single_line_thickness : ℝ
  orientation_angle : ℝ

/-- The `Window` constructor raises `ValueError` when the internal thickness
`overall_thickness - 2 * single_line_thickness` is not positive. -/
def Window.init (anchor_point : Pt)
    (length overall_thickness single_line_thickness orientation_angle : ℝ) : Option Window :=
  let internal_thickness := overall_thickness - 2 * single_line_thickness
  if internal_thickness ≤ 0 then none
  else some { anchor_point, length, overall_thickness, single_line_thickness, orientation_angle }

def Window.draw (w : Window) : List Primitive :=
  let first_line :=
    Primitive.rect w.anchor_point w.length w.single_line_thickness w.orientation_angle true
  let shift := w.overall_thickness - w.single_line_thickness
  let second_anchor_point :=
    pointAt w.anchor_point shift (w.orientation_angle + STRAIGHT_ANGLE_IN_DEGREES)
  let second_line :=
    Primitive.rect second_anchor_point w.length w.single_line_thickness w.orientation_angle true
  [first_line, second_line]

/-! ### Door (`elements/basic.py`) -/

structure Door where
  anchor_point : Pt
  doorway_width : ℝ
  door_width : ℝ
  frame_width : ℝ
  thickness : ℝ
  orientation_angle : ℝ
  to_the_right : Bool

/-- The `Door` constructor only assigns its arguments (storing
`frame_width = (doorway_width - door_width) / 2`); it never raises. -/
def Door.init (anchor_point : Pt) (doorway_width door_width thickness orientation_angle : ℝ)
    (to_the_right : Bool) : Option Door :=
  some { anchor_point, doorway_width, door_width,
         frame_width := (doorway_width - door_width) / 2,
         thickness, orientation_angle, to_the_right }

def Door.draw (d : Door) : List Primitive :=
  let frame_orientation_angle := d.orientation_angle - STRAIGHT_ANGLE_IN_DEGREES
  let frame_with_hinges :=
    Primitive.rect d.anchor_point d.thickness d.frame_width frame_orientation_angle true
  let shift := d.frame_width + d.door_width
  let frame_without_hinges_anchor_point := pointAt d.anchor_point shift d.orientation_angle
  let frame_without_hinges :=
    Primitive.rect frame_without_hinges_anchor_point d.thickness d.frame_width
      frame_orientation_angle true
  let hinges_point_initial := pointAt d.anchor_point d.frame_width d.orientation_angle
  let hinges_point : Pt :=
    if d.to_the_right then
      ⟨hinges_point_initial.x + Real.sin (rad d.orientation_angle) * d.thickness,
       hinges_point_initial.y - Real.cos (rad d.orientation_angle) * d.thickness⟩
    else hinges_point_initial
  let door :=
    if d.to_the_right then
      Primitive.rect hinges_point d.door_width d.thickness
        (d.orientation_angle - STRAIGHT_ANGLE_IN_DEGREES) true
    else
      Primitive.rect hinges_point d.thickness d.door_width d.orientation_angle true
  let arc_anchor_point := pointAt hinges_point d.thickness d.orientation_angle
  let extra_degrees_for_smooth_connection : ℝ := 2
  let start_angle :=
    if d.to_the_right then -STRAIGHT_ANGLE_IN_DEGREES - extra_degrees_for_smooth_connection
    else 0
  let end_angle :=
    if d.to_the_right then 0
    else STRAIGHT_ANGLE_IN_DEGREES + extra_degrees_for_smooth_connection
  let arc :=
    Primitive.arc arc_anchor_point (2 * (d.door_width - d.thickness)) (2 * d.door_width)
      d.orientation_angle start_angle end_angle
  [frame_with_hinges, frame_without_hinges, door, arc]

/-! ### DimensionArrow (`elements/info.py`) -/

structure DimensionArrow where
  anchor_point : Pt
  length : ℝ
  orientation_angle : ℝ
  width : ℝ
  tip_length : ℝ
  font_size : ℝ
  annotate_above : Bool

/-- The `DimensionArrow` constructor only assigns its arguments; it never raises. -/
def DimensionArrow.init (anchor_point : Pt) (length orientation_angle width tip_length : ℝ)
    (font_size : ℝ) (annotate_above : Bool) : Option DimensionArrow :=
  some { anchor_point, length, orientation_angle, width, tip_length, font_size, annotate_above }

/-- The axis-aligned vertex list `initial_vertices` from `DimensionArrow.draw`,
transcribed row by row. -/
def DimensionArrow.initial_vertices (a : DimensionArrow) : List Pt :=
  let tip_angle := rad 30
  [⟨0, 0⟩,
   ⟨a.tip_length - Real.sin tip_angle * a.width,
    Real.tan tip_angle * (a.tip_length - Real.sin tip_angle * a.width)⟩,
   ⟨a.tip_length,
    Real.tan tip_angle * (a.tip_length - Real.sin tip_angle * a.width)
      - Real.cos tip_angle * a.width⟩,
   ⟨a.width / 2 / Real.tan tip_angle + a.width / Real.sin tip_angle, a.width / 2⟩,
   ⟨a.length - a.width / 2 / Real.tan tip_angle - a.width / Real.sin tip_angle, a.width / 2⟩,
   ⟨a.length - a.tip_length,
    Real.tan tip_angle * (a.tip_length - Real.sin tip_angle * a.width)
      - Real.cos tip_angle * a.width⟩,
   ⟨a.length - a.tip_length + Real.sin tip_angle * a.width,
    Real.tan tip_angle * (a.tip_length - Real.sin tip_angle * a.width)⟩,
   ⟨a.length, 0⟩,
   ⟨a.length - a.tip_length + Real.sin tip_angle * a.width,
    -(Real.tan tip_angle * (a.tip_length - Real.sin tip_angle * a.width))⟩,
   ⟨a.length - a.tip_length,
    -(Real.tan tip_angle * (a.tip_length - Real.sin tip_angle * a.width))
      + Real.cos tip_angle * a.width⟩,
   ⟨a.length - a.width / 2 / Real.tan tip_angle - a.width / Real.sin tip_angle, -(a.width / 2)⟩,
   ⟨a.width / 2 / Real.tan tip_angle + a.width / Real.sin tip_angle, -(a.width / 2)⟩,
   ⟨a.tip_length,
    -(Real.tan tip_angle * (a.tip_length - Real.sin tip_angle * a.width))
      + Real.cos tip_angle * a.width⟩,
   ⟨a.tip_length - Real.sin tip_angle * a.width,
    -(Real.tan tip_angle * (a.tip_length - Real.sin tip_angle * a.width))⟩]

/-- The vertex list of the filled polygon handed to the surface: the initial
vertices rotated as a rigid body by `orientation_angle` and translated to the
anchor point (`np.dot(rotation_matrix, initial_vertices.T).T + shift_vector`). -/
def DimensionArrow.vertices (a : DimensionArrow) : List Pt :=
  a.initial_vertices.map (fun p => (rot (rad a.orientation_angle) p).add a.anchor_point)

def DimensionArrow.draw (a : DimensionArrow) : List Primitive :=
  let arrow := Primitive.poly a.vertices true
  let initial_text_center : Pt :=
    ⟨a.length / 2, if a.annotate_above then a.font_size * 0.0125 else -(a.font_size * 0.0125)⟩
  let text_anchor_point := (rot (rad a.orientation_angle) initial_text_center).add a.anchor_point
  [arrow,
   Primitive.text text_anchor_point (TextContent.ofReal a.length) a.orientation_angle a.font_size]

/-! ### WallLamp (`elements/lighting.py`) -/

structure WallLamp where
  anchor_point : Pt
  symbol_diameter : ℝ
  orientation_angle : ℝ
  stub_relative_depth : ℝ

/-- The `WallLamp` constructor only assigns its arguments; it never raises. -/
def WallLamp.init (anchor_point : Pt) (symbol_diameter orientation_angle stub_relative_depth : ℝ) :
    Option WallLamp :=
  some { anchor_point, symbol_diameter, orientation_angle, stub_relative_depth }

def WallLamp.draw (l : WallLamp) : List Primitive :=
  let oa := rad l.orientation_angle
  let stub_width := 0.5 * Real.sqrt 2 * l.symbol_diameter
  let stub_depth := l.stub_relative_depth * stub_width
  let stub_anchor_point : Pt :=
    ⟨l.anchor_point.x - 0.5 * Real.cos oa * stub_width,
     l.anchor_point.y - 0.5 * Real.sin oa * stub_width⟩
  let stub := Primitive.rect stub_anchor_point stub_width stub_depth l.orientation_angle false
  let orthogonal := oa + Real.pi / 2
  let shift := stub_depth + 0.5 * stub_width
  let arc_center : Pt :=
    ⟨l.anchor_point.x + Real.cos orthogonal * shift,
     l.anchor_point.y + Real.sin orthogonal * shift⟩
  let arc :=
    Primitive.arc arc_center l.symbol_diameter l.symbol_diameter 0
      (l.orientation_angle - 0.5 * RIGHT_ANGLE_IN_DEGREES)
      (l.orientation_angle + 2.5 * RIGHT_ANGLE_IN_DEGREES)
  let cross_angle_0 := oa - 0.75 * Real.pi
  let cross_angle_1 := oa + 0.25 * Real.pi
  let cross_angle_2 := oa + 0.75 * Real.pi
  let cross_angle_3 := oa - 0.25 * Real.pi
  let cross_first :=
    Primitive.seg
      ⟨arc_center.x + 0.5 * Real.cos cross_angle_0 * l.symbol_diameter,
       arc_center.y + 0.5 * Real.sin cross_angle_0 * l.symbol_diameter⟩
      ⟨arc_center.x + 0.5 * Real.cos cross_angle_1 * l.symbol_diameter,
       arc_center.y + 0.5 * Real.sin cross_angle_1 * l.symbol_diameter⟩
  let cross_second :=
    Primitive.seg
      ⟨arc_center.x + 0.5 * Real.cos cross_angle_2 * l.symbol_diameter,
       arc_center.y + 0.5 * Real.sin cross_angle_2 * l.symbol_diameter⟩
      ⟨arc_center.x + 0.5 * Real.cos cross_angle_3 * l.symbol_diameter,
       arc_center.y + 0.5 * Real.sin cross_angle_3 * l.symbol_diameter⟩
  [stub, arc, cross_first, cross_second]

/-! ### LEDStrip (`elements/lighting.py`) -/

structure LEDStrip where
  anchor_point : Pt
  length : ℝ
  width : ℝ
  orientation_angle : ℝ

/-- The constant attribute `self.circle_diameter_to_width = 0.6`. -/
def LEDStrip.circle_diameter_to_width : ℝ := 0.6

/-- The `LEDStrip` constructor only assigns its arguments; it never raises. -/
def LEDStrip.init (anchor_point : Pt) (length width orientation_angle : ℝ) : Option LEDStrip :=
  some { anchor_point, length, width, orientation_angle }

/-- Drawing an LED strip: one unfilled rectangle plus `n_circles` circles.  In the
source, `x_offset = 0.5 * self.length / n_circles` raises `ZeroDivisionError` when
`n_circles = math.floor(self.length / self.width)` is zero (Python also raises on
`self.length / self.width` itself when `width` is zero, and in that case the Lean
convention `x / 0 = 0` makes `n_circles` zero as well), so the result is `none`
exactly when `n_circles = 0`. -/
def LEDStrip.draw (s : LEDStrip) : Option (List Primitive) :=
  let rectangle := Primitive.rect s.anchor_point s.length s.width s.orientation_angle false
  let oa := rad s.orientation_angle
  let n_circles : ℤ := ⌊s.length / s.width⌋
  if n_circles = 0 then none
  else
    let x_offset := 0.5 * s.length / (n_circles : ℝ)
    let y_offset := 0.5 * s.width
    some (rectangle ::
      (List.range n_circles.toNat).map (fun (i : ℕ) =>
        Primitive.circle
          ⟨s.anchor_point.x + Real.cos oa * (2 * (i : ℝ) + 1) * x_offset
             + Real.cos (oa + Real.pi / 2) * y_offset,
           s.anchor_point.y + Real.sin oa * (2 * (i : ℝ) + 1) * x_offset
             + Real.sin (oa + Real.pi / 2) * y_offset⟩
          (0.5 * LEDStrip.circle_diameter_to_width * s.width) false))

/-! ### Remaining element constructors (`lighting.py`, `electricity.py`, `multipurpose.py`) -/

structure CeilingLamp where
  anchor_point : Pt
  symbol_diameter : ℝ

/-- The `CeilingLamp` constructor only assigns its arguments; it never raises. -/
def CeilingLamp.init (anchor_point : Pt) (symbol_diameter : ℝ) : Option CeilingLamp :=
  some { anchor_point, symbol_diameter }

structure Switch where
  anchor_point : Pt
  symbol_length : ℝ
  orientation_angle : ℝ
  two_key : Bool
  pass_through : Bool

/-- The `Switch` constructor only assigns its arguments; it never raises. -/
def Switch.init (anchor_point : Pt) (symbol_length orientation_angle : ℝ)
    (two_key pass_through : Bool) : Option Switch :=
  some { anchor_point, symbol_length, orientation_angle, two_key, pass_through }

structure PowerOutlet where
  anchor_point : Pt
  length : ℝ
  orientation_angle : ℝ
  waterproof : Bool
  high_voltage : Bool
  low_current : Bool

/-- The `PowerOutlet` constructor only assigns its arguments; it never raises. -/
def PowerOutlet.init (anchor_point : Pt) (length orientation_angle : ℝ)
    (waterproof high_voltage low_current : Bool) : Option PowerOutlet :=
  some { anchor_point, length, orientation_angle, waterproof, high_voltage, low_current }

structure ElectricalCable where
  anchor_point : Pt
  symbol_length : ℝ
  orientation_angle : ℝ
  n_arcs : ℤ

/-- The `ElectricalCable` constructor only assigns its arguments; it never raises. -/
def ElectricalCable.init (anchor_point : Pt) (symbol_length orientation_angle : ℝ) (n_arcs : ℤ) :
    Option ElectricalCable :=
  some { anchor_point, symbol_length, orientation_angle, n_arcs }

/-- The class attribute `Line.style_to_matplotlib_code`. -/
def style_to_matplotlib_code : List (String × String) :=
  [("solid", "-"), ("dashed", "--"), ("dotted", "."), ("dash_dot", "-.")]

structure Line where
  first_point : Pt
  second_point : Pt
  style : String

/-- The `Line` constructor stores `self.style_to_matplotlib_code[style]`; the dict
lookup raises `KeyError` for an unrecognized style name, so the result is `none`
exactly when `style` is not a key of the table. -/
def Line.init (first_point second_point : Pt) (style : String) : Option Line :=
  match style_to_matplotlib_code.lookup style with
  | none => none
  | some code => some { first_point, second_point, style := code }

structure Polygon where
  vertices : List Pt

/-- The `Polygon` constructor only assigns its arguments; it never raises. -/
def Polygon.init (vertices : List Pt) : Option Polygon :=
  some { vertices }

/-! ### TextBox -/

/-- Modelled from the spec: `registry.py` imports `TextBox` from
`renovation.elements.info`, but the provided `info.py` defines only
`DimensionArrow`, so the class body is missing from the sources.  Per the spec, a
TextBox is "a label with position and style forwarded to the surface's text
primitive (no geometric derivation)". -/
structure TextBox where
  anchor_point : Pt
  text : String
  orientation_angle : ℝ
  font_size : ℝ

/-- Modelled from the spec: the `TextBox` constructor only assigns its arguments. -/
def TextBox.init (anchor_point : Pt) (text : String) (orientation_angle font_size : ℝ) :
    Option TextBox :=
  some { anchor_point, text, orientation_angle, font_size }

/-- Modelled from the spec: drawing a TextBox forwards its position, content and
style to the surface's text primitive, with no geometric derivation. -/
def TextBox.draw (tb : TextBox) : List Primitive :=
  [Primitive.text tb.anchor_point (TextContent.ofString tb.text) tb.orientation_angle tb.font_size]

/-! ### Registry (`elements/registry.py`) -/

/-- The element kinds implemented by the library, one per class. -/
inductive ElementKind where
  | ceiling_lamp
  | dimension_arrow
  | door
  | electrical_cable
  | led_strip
  | line
  | polygon
  | power_outlet
  | switch
  | text_box
  | wall
  | wall_lamp
  | window
  deriving DecidableEq

/-- The registry from `create_elements_registry`: a mapping from element type
name to element class. -/
def create_elements_registry : List (String × ElementKind) :=
  [("ceiling_lamp", ElementKind.ceiling_lamp),
   ("dimension_arrow", ElementKind.dimension_arrow),
   ("door", ElementKind.door),
   ("electrical_cable", ElementKind.electrical_cable),
   ("led_strip", ElementKind.led_strip),
   ("line", ElementKind.line),
   ("polygon", ElementKind.polygon),
   ("power_outlet", ElementKind.power_outlet),
   ("switch", ElementKind.switch),
   ("text_box", ElementKind.text_box),
   ("wall", ElementKind.wall),
   ("wall_lamp", ElementKind.wall_lamp),
   ("window", ElementKind.window)]

/-! ### FloorPlan (`floor_plan.py`) -/

/-- The figure size (in inches) computed by `FloorPlan.__init__` and passed to
`plt.figure(figsize=...)`. -/
def FloorPlan.figsize (bottom_left_corner top_right_corner : Pt)
    (scale_numerator scale_denominator : ℤ) : ℝ × ℝ :=
  let horizontal_len := top_right_corner.x - bottom_left_corner.x
  let vertical_len := top_right_corner.y - bottom_left_corner.y
  let scale := (scale_numerator : ℝ) / (scale_denominator : ℝ)
  (horizontal_len * scale / METERS_PER_INCH, vertical_len * scale / METERS_PER_INCH)

/-- An element as the canvas sees it: anything with a `draw` emitting primitives
(the `Element` abstract base class is polymorphic over exactly this capability). -/
structure Element where
  draw : List Primitive

/-- State of a floor plan relevant to element handling: the ordered paint
sequence and the primitives accumulated on the page surface. -/
structure FloorPlanState where
  elements : List Element
  surface : List Primitive

/-- Modelled from the spec: `FloorPlan.add_element` is called by `__main__.py` but
its body is missing from the provided `floor_plan.py`.  The spec states:
"addElement(element): appends to the paint-order sequence and draws immediately
onto the page surface". -/
def FloorPlanState.add_element (fp : FloorPlanState) (e : Element) : FloorPlanState :=
  { elements := fp.elements ++ [e], surface := fp.surface ++ e.draw }

/-! ### Point-set semantics of primitives -/

/-- The set of points covered by a matplotlib `Rectangle` patch: the axis-aligned
rectangle `[0, width] × [0, height]` rotated by `angDeg` degrees about the anchor
and translated to it. -/
def rectPoints (anchor : Pt) (width height angDeg : ℝ) : Set Pt :=
  {p | ∃ u v : ℝ, 0 ≤ u ∧ u ≤ width ∧ 0 ≤ v ∧ v ≤ height ∧
    p = anchor.add (rot (rad angDeg) ⟨u, v⟩)}

/-- The set of points of a matplotlib `Arc` patch: the parametric ellipse arc
`center + R(angDeg) · (width/2 · cos s, height/2 · sin s)` for the parametric
angle `s` ranging over `[theta1, theta2]` (given in degrees relative to the
ellipse rotation). -/
def arcPoints (center : Pt) (width height angDeg theta1 theta2 : ℝ) : Set Pt :=
  {p | ∃ s : ℝ, rad theta1 ≤ s ∧ s ≤ rad theta2 ∧
    p = center.add (rot (rad angDeg) ⟨width / 2 * Real.cos s, height / 2 * Real.sin s⟩)}

/-- The set of points of a `Circle` patch boundary. -/
def circlePoints (center : Pt) (radius : ℝ) : Set Pt :=
  {p | (p.x - center.x) ^ 2 + (p.y - center.y) ^ 2 = radius ^ 2}

/-- The set of points of a straight segment between two points. -/
def segPoints (p q : Pt) : Set Pt :=
  {z | ∃ t : ℝ, 0 ≤ t ∧ t ≤ 1 ∧
    z = ⟨p.x + t * (q.x - p.x), p.y + t * (q.y - p.y)⟩}

/-- The vertex set of a polygon patch (sufficient for the claims below, which
never compare polygon interiors). -/
def polyPoints (vs : List Pt) : Set Pt := {p | p ∈ vs}

/-- The point set of a primitive. -/
def Primitive.points : Primitive → Set Pt
  | .rect a w h ang _ => rectPoints a w h ang
  | .arc c w h ang t1 t2 => arcPoints c w h ang t1 t2
  | .circle c r _ => circlePoints c r
  | .seg p q => segPoints p q
  | .poly vs _ => polyPoints vs
  | .text p _ _ _ => {p}

/-- The point set of a list of primitives. -/
def geom : List Primitive → Set Pt
  | [] => ∅
  | p :: rest => p.points ∪ geom rest

/-- The end angle minus the start angle of an arc primitive. -/
def Primitive.arcSpan : Primitive → Option ℝ
  | .arc _ _ _ _ t1 t2 => some (t2 - t1)
  | _ => none

/-- Reflection of the plane across the line through `c` in direction `angDeg`
degrees. -/
def reflAcross (c : Pt) (angDeg : ℝ) (p : Pt) : Pt :=
  ⟨c.x + Real.cos (2 * rad angDeg) * (p.x - c.x) + Real.sin (2 * rad angDeg) * (p.y - c.y),
   c.y + Real.sin (2 * rad angDeg) * (p.x - c.x) - Real.cos (2 * rad angDeg) * (p.y - c.y)⟩

/-! ### Basic lemmas -/

@[simp]
lemma Pt.add_x (p q : Pt) : (p.add q).x = p.x + q.x := rfl

@[simp]
lemma Pt.add_y (p q : Pt) : (p.add q).y = p.y + q.y := rfl

@[simp]
lemma rot_x (a : ℝ) (q : Pt) : (rot a q).x = Real.cos a * q.x - Real.sin a * q.y := rfl

@[simp]
lemma rot_y (a : ℝ) (q : Pt) : (rot a q).y = Real.sin a * q.x + Real.cos a * q.y := rfl

@[simp]
lemma rad_zero : rad 0 = 0 := by simp [rad]

@[simp]
lemma rad_neg (x : ℝ) : rad (-x) = -rad x := by
  simp [rad]

lemma pointAt_eq_add_rot (p : Pt) (dist ang : ℝ) :
    pointAt p dist ang = p.add (rot (rad ang) ⟨dist, 0⟩) := by
  ext <;> simp [pointAt] <;> ring

lemma add_rot_add_rot (p : Pt) (t : ℝ) (q r : Pt) :
    (p.add (rot t q)).add (rot t r) = p.add (rot t (q.add r)) := by
  ext <;> simp [Pt.add] <;> ring

/-- A rotation by 90 degrees less sends the frame-local coordinates `(u, v)` to
`(v, -u)` in the base frame. -/
lemma rot_sub_ninety (d : ℝ) (q : Pt) :
    rot (rad (d - STRAIGHT_ANGLE_IN_DEGREES)) q = rot (rad d) ⟨q.y, -q.x⟩ := by
  have h : rad (d - STRAIGHT_ANGLE_IN_DEGREES) = rad d - Real.pi / 2 := by
    rw [STRAIGHT_ANGLE_IN_DEGREES, rad, rad]
    ring
  ext <;>
    simp [h, Real.cos_sub_pi_div_two, Real.sin_sub_pi_div_two] <;> ring

/-- The door-leaf hinge shift `(sin θ · t, -cos θ · t)` is the displacement `t`
downward in the frame rotated by `θ`. -/
lemma hinge_shift_eq (p : Pt) (θ t : ℝ) :
    (⟨p.x + Real.sin (rad θ) * t, p.y - Real.cos (rad θ) * t⟩ : Pt)
      = p.add (rot (rad θ) ⟨0, -t⟩) := by
  ext <;> simp <;> ring

/-- Reflecting across the line with direction `θ` through the point shifted by
`t/2` downward (in the `θ`-rotated frame) from `a` sends the frame coordinates
`(x, y)` to `(x, -y - t)`. -/
lemma reflAcross_shifted (a : Pt) (θ t : ℝ) (q : Pt) :
    reflAcross (a.add (rot (rad θ) ⟨0, -(t / 2)⟩)) θ (a.add (rot (rad θ) q))
      = a.add (rot (rad θ) ⟨q.x, -q.y - t⟩) := by
  have hpy := Real.sin_sq_add_cos_sq (rad θ)
  have h2 : 2 * rad θ = rad θ + rad θ := by ring
  ext
  · simp only [reflAcross, Pt.add_x, Pt.add_y, rot_x, rot_y, h2, Real.cos_add, Real.sin_add]
    linear_combination
      (Real.cos (rad θ) * q.x + Real.sin (rad θ) * q.y + Real.sin (rad θ) * (t / 2)) * hpy
  · simp only [reflAcross, Pt.add_x, Pt.add_y, rot_x, rot_y, h2, Real.cos_add, Real.sin_add]
    linear_combination
      (Real.sin (rad θ) * q.x - Real.cos (rad θ) * q.y - Real.cos (rad θ) * (t / 2)) * hpy

/-- A rectangle whose anchor is given in the `θ`-rotated frame and whose angle
is `θ`, rewritten as a parametrized set in that frame. -/
lemma rectPoints_at_angle (a : Pt) (θ : ℝ) (q0 : Pt) (w h : ℝ) :
    rectPoints (a.add (rot (rad θ) q0)) w h θ
      = {p | ∃ u v : ℝ, 0 ≤ u ∧ u ≤ w ∧ 0 ≤ v ∧ v ≤ h ∧
          p = a.add (rot (rad θ) ⟨q0.x + u, q0.y + v⟩)} := by
  unfold rectPoints
  ext p
  constructor
  · rintro ⟨u, v, h1, h2, h3, h4, rfl⟩
    exact ⟨u, v, h1, h2, h3, h4, by rw [add_rot_add_rot]; rfl⟩
  · rintro ⟨u, v, h1, h2, h3, h4, rfl⟩
    exact ⟨u, v, h1, h2, h3, h4, by rw [add_rot_add_rot]; rfl⟩

/-- A rectangle whose anchor is given in the `θ`-rotated frame and whose angle
is `θ - 90`, rewritten as a parametrized set in the `θ`-rotated frame. -/
lemma rectPoints_at_angle_sub90 (a : Pt) (θ : ℝ) (q0 : Pt) (w h : ℝ) :
    rectPoints (a.add (rot (rad θ) q0)) w h (θ - STRAIGHT_ANGLE_IN_DEGREES)
      = {p | ∃ u v : ℝ, 0 ≤ u ∧ u ≤ w ∧ 0 ≤ v ∧ v ≤ h ∧
          p = a.add (rot (rad θ) ⟨q0.x + v, q0.y - u⟩)} := by
  unfold rectPoints
  ext p
  constructor
  · rintro ⟨u, v, h1, h2, h3, h4, rfl⟩
    refine ⟨u, v, h1, h2, h3, h4, ?_⟩
    rw [rot_sub_ninety, add_rot_add_rot]
    ext <;> simp only [Pt.add_x, Pt.add_y, rot_x, rot_y] <;> ring
  · rintro ⟨u, v, h1, h2, h3, h4, rfl⟩
    refine ⟨u, v, h1, h2, h3, h4, ?_⟩
    rw [rot_sub_ninety, add_rot_add_rot]
    ext <;> simp only [Pt.add_x, Pt.add_y, rot_x, rot_y] <;> ring

/-- An elliptic arc whose center is given in the `θ`-rotated frame and whose
rotation is `θ`, rewritten as a parametrized set in that frame. -/
lemma arcPoints_at_angle (a : Pt) (θ : ℝ) (q0 : Pt) (w h t1 t2 : ℝ) :
    arcPoints (a.add (rot (rad θ) q0)) w h θ t1 t2
      = {p | ∃ s : ℝ, rad t1 ≤ s ∧ s ≤ rad t2 ∧
          p = a.add (rot (rad θ) ⟨q0.x + w / 2 * Real.cos s, q0.y + h / 2 * Real.sin s⟩)} := by
  unfold arcPoints
  ext p
  constructor
  · rintro ⟨s, h1, h2, rfl⟩
    exact ⟨s, h1, h2, by rw [add_rot_add_rot]; rfl⟩
  · rintro ⟨s, h1, h2, rfl⟩
    exact ⟨s, h1, h2, by rw [add_rot_add_rot]; rfl⟩

/-- Image of a rectangle-shaped parametrized set. -/
lemma image_rect_form (g : Pt → Pt) (w h : ℝ) (F : ℝ → ℝ → Pt) :
    Set.image g {p | ∃ u v : ℝ, 0 ≤ u ∧ u ≤ w ∧ 0 ≤ v ∧ v ≤ h ∧ p = F u v}
      = {p | ∃ u v : ℝ, 0 ≤ u ∧ u ≤ w ∧ 0 ≤ v ∧ v ≤ h ∧ p = g (F u v)} := by
  ext p
  constructor
  · rintro ⟨z, ⟨u, v, h1, h2, h3, h4, rfl⟩, rfl⟩
    exact ⟨u, v, h1, h2, h3, h4, rfl⟩
  · rintro ⟨u, v, h1, h2, h3, h4, rfl⟩
    exact ⟨F u v, ⟨u, v, h1, h2, h3, h4, rfl⟩, rfl⟩

/-- Image of an arc-shaped parametrized set. -/
lemma image_arc_form (g : Pt → Pt) (t1 t2 : ℝ) (F : ℝ → Pt) :
    Set.image g {p | ∃ s : ℝ, t1 ≤ s ∧ s ≤ t2 ∧ p = F s}
      = {p | ∃ s : ℝ, t1 ≤ s ∧ s ≤ t2 ∧ p = g (F s)} := by
  ext p
  constructor
  · rintro ⟨z, ⟨s, h1, h2, rfl⟩, rfl⟩
    exact ⟨s, h1, h2, rfl⟩
  · rintro ⟨s, h1, h2, rfl⟩
    exact ⟨F s, ⟨s, h1, h2, rfl⟩, rfl⟩

@[simp]
lemma Pt.add_mk (x1 y1 x2 y2 : ℝ) : (⟨x1, y1⟩ : Pt).add ⟨x2, y2⟩ = ⟨x1 + x2, y1 + y2⟩ := rfl

@[simp]
lemma add_rot_zero (p : Pt) (t : ℝ) : p.add (rot t ⟨0, 0⟩) = p := by
  ext <;> simp

/-- Mirroring a door-frame rectangle across the wall center line maps it onto
itself, for an anchor offset along the doorway axis. -/
lemma mirror_frame_rect_shifted (a : Pt) (θ t f k : ℝ) :
    Set.image (reflAcross (a.add (rot (rad θ) ⟨0, -(t / 2)⟩)) θ)
        (rectPoints (a.add (rot (rad θ) ⟨k, 0⟩)) t f (θ - STRAIGHT_ANGLE_IN_DEGREES))
      = rectPoints (a.add (rot (rad θ) ⟨k, 0⟩)) t f (θ - STRAIGHT_ANGLE_IN_DEGREES) := by
  rw [rectPoints_at_angle_sub90, image_rect_form]
  ext p
  constructor
  · rintro ⟨u, v, h1, h2, h3, h4, rfl⟩
    refine ⟨t - u, v, by linarith, by linarith, h3, h4, ?_⟩
    rw [reflAcross_shifted]
    ext <;> simp only [Pt.add_x, Pt.add_y, rot_x, rot_y] <;> ring
  · rintro ⟨u, v, h1, h2, h3, h4, rfl⟩
    refine ⟨t - u, v, by linarith, by linarith, h3, h4, ?_⟩
    rw [reflAcross_shifted]
    ext <;> simp only [Pt.add_x, Pt.add_y, rot_x, rot_y] <;> ring

/-- The same for the frame rectangle anchored at the anchor point itself. -/
lemma mirror_frame_rect (a : Pt) (θ t f : ℝ) :
    Set.image (reflAcross (a.add (rot (rad θ) ⟨0, -(t / 2)⟩)) θ)
        (rectPoints a t f (θ - STRAIGHT_ANGLE_IN_DEGREES))
      = rectPoints a t f (θ - STRAIGHT_ANGLE_IN_DEGREES) := by
  have h := mirror_frame_rect_shifted a θ t f 0
  simpa using h

/-- Mirroring the leftward door leaf across the wall center line yields the
rightward door leaf. -/
lemma mirror_leaf_rect (a : Pt) (θ t f w : ℝ) :
    Set.image (reflAcross (a.add (rot (rad θ) ⟨0, -(t / 2)⟩)) θ)
        (rectPoints (a.add (rot (rad θ) ⟨f, 0⟩)) t w θ)
      = rectPoints (a.add (rot (rad θ) ⟨f, -t⟩)) w t (θ - STRAIGHT_ANGLE_IN_DEGREES) := by
  rw [rectPoints_at_angle, rectPoints_at_angle_sub90, image_rect_form]
  ext p
  constructor
  · rintro ⟨u, v, h1, h2, h3, h4, rfl⟩
    refine ⟨v, u, h3, h4, h1, h2, ?_⟩
    rw [reflAcross_shifted]
    ext <;> simp only [Pt.add_x, Pt.add_y, rot_x, rot_y] <;> ring
  · rintro ⟨u, v, h1, h2, h3, h4, rfl⟩
    refine ⟨v, u, h3, h4, h1, h2, ?_⟩
    rw [reflAcross_shifted]
    ext <;> simp only [Pt.add_x, Pt.add_y, rot_x, rot_y] <;> ring

/-- Mirroring the leftward swing arc across the wall center line yields the
rightward swing arc. -/
lemma mirror_arc (a : Pt) (θ t f w : ℝ) :
    Set.image (reflAcross (a.add (rot (rad θ) ⟨0, -(t / 2)⟩)) θ)
        (arcPoints (a.add (rot (rad θ) ⟨f + t, 0⟩)) (2 * (w - t)) (2 * w) θ 0
          (STRAIGHT_ANGLE_IN_DEGREES + 2))
      = arcPoints (a.add (rot (rad θ) ⟨f + t, -t⟩)) (2 * (w - t)) (2 * w) θ
          (-STRAIGHT_ANGLE_IN_DEGREES - 2) 0 := by
  rw [arcPoints_at_angle, arcPoints_at_angle, image_arc_form]
  have hneg : rad (-STRAIGHT_ANGLE_IN_DEGREES - 2) = -(rad (STRAIGHT_ANGLE_IN_DEGREES + 2)) := by
    rw [rad, rad]
    ring
  ext p
  constructor
  · rintro ⟨s, h1, h2, rfl⟩
    rw [rad_zero] at h1
    refine ⟨-s, ?_, ?_, ?_⟩
    · rw [hneg]
      linarith
    · rw [rad_zero]
      linarith
    · rw [reflAcross_shifted]
      ext <;>
        simp only [Pt.add_x, Pt.add_y, rot_x, rot_y, Real.cos_neg, Real.sin_neg] <;> ring
  · rintro ⟨s, h1, h2, rfl⟩
    rw [rad_zero] at h2
    rw [hneg] at h1
    refine ⟨-s, ?_, ?_, ?_⟩
    · rw [rad_zero]
      linarith
    · linarith
    · rw [reflAcross_shifted]
      ext <;>
        simp only [Pt.add_x, Pt.add_y, rot_x, rot_y, Real.cos_neg, Real.sin_neg] <;> ring

/-! ### Theorems for the claims -/

/-- C2: `add_element` appends the element to the ordered paint sequence (keeping
every previously added element in place, in order) and immediately invokes the
element's draw on the drawing surface. -/
theorem add_element_appends_and_draws (fp : FloorPlanState) (e : Element) :
    (fp.add_element e).elements = fp.elements ++ [e]
    ∧ (fp.add_element e).surface = fp.surface ++ e.draw :=
  ⟨rfl, rfl⟩

/-- C6: a `TextBox` forwards its position, content and style to the surface's
text primitive with no geometric derivation, and the element registry maps each
kind name to its element kind. -/
theorem textbox_forwards_and_registry (tb : TextBox) :
    tb.draw = [Primitive.text tb.anchor_point (TextContent.ofString tb.text)
        tb.orientation_angle tb.font_size]
    ∧ create_elements_registry.lookup "text_box" = some ElementKind.text_box
    ∧ create_elements_registry.lookup "ceiling_lamp" = some ElementKind.ceiling_lamp
    ∧ create_elements_registry.lookup "dimension_arrow" = some ElementKind.dimension_arrow
    ∧ create_elements_registry.lookup "door" = some ElementKind.door
    ∧ create_elements_registry.lookup "electrical_cable" = some ElementKind.electrical_cable
    ∧ create_elements_registry.lookup "led_strip" = some ElementKind.led_strip
    ∧ create_elements_registry.lookup "line" = some ElementKind.line
    ∧ create_elements_registry.lookup "polygon" = some ElementKind.polygon
    ∧ create_elements_registry.lookup "power_outlet" = some ElementKind.power_outlet
    ∧ create_elements_registry.lookup "switch" = some ElementKind.switch
    ∧ create_elements_registry.lookup "wall" = some ElementKind.wall
    ∧ create_elements_registry.lookup "wall_lamp" = some ElementKind.wall_lamp
    ∧ create_elements_registry.lookup "window" = some ElementKind.window := by
  refine ⟨rfl, ?_, ?_, ?_, ?_, ?_, ?_, ?_, ?_, ?_, ?_, ?_, ?_, ?_⟩ <;> rfl

/-- C8: the page's physical size in inches is the corner-to-corner extent times
the scale ratio divided by 0.0254 meters per inch; in particular a (0,0)-(5,3)
canvas at scale 1/100 yields a page of 5·0.01/0.0254 by 3·0.01/0.0254 inches. -/
theorem floor_plan_figsize_formula (bl tr : Pt) (num den : ℤ) :
    FloorPlan.figsize bl tr num den
      = ((tr.x - bl.x) * ((num : ℝ) / (den : ℝ)) / 0.0254,
         (tr.y - bl.y) * ((num : ℝ) / (den : ℝ)) / 0.0254)
    ∧ FloorPlan.figsize ⟨0, 0⟩ ⟨5, 3⟩ 1 100
      = (5 * 0.01 / 0.0254, 3 * 0.01 / 0.0254) := by
  constructor
  · rfl
  · simp only [FloorPlan.figsize, METERS_PER_INCH]
    norm_num

/-- C9: for an LED strip with positive length shorter than its width the
constructor succeeds, but drawing divides by `n_circles = floor(length/width) = 0`
when computing the circle spacing and therefore fails instead of producing a
rectangle with zero circles. -/
theorem led_strip_draw_div_by_zero (a : Pt) (l w θ : ℝ) (h1 : 0 < l) (h2 : l < w) :
    ∃ s : LEDStrip, LEDStrip.init a l w θ = some s ∧ s.draw = none := by
  refine ⟨⟨a, l, w, θ⟩, rfl, ?_⟩
  have hw : 0 < w := h1.trans h2
  have hfloor : ⌊l / w⌋ = 0 :=
    Int.floor_eq_zero_iff.mpr ⟨div_nonneg h1.le hw.le, (div_lt_one hw).mpr h2⟩
  simp [LEDStrip.draw, hfloor]

/-- Witness for C9 at length 0.1, width 0.2. -/
theorem led_strip_draw_div_by_zero_witness :
    ∃ s : LEDStrip, LEDStrip.init ⟨0, 0⟩ 0.1 0.2 0 = some s ∧ s.draw = none :=
  led_strip_draw_div_by_zero ⟨0, 0⟩ 0.1 0.2 0 (by norm_num) (by norm_num)

/-- C10 counterexample: the `Line` constructor also rejects a parameter
assignment (an unrecognized style string raises a lookup error), so `Window` is
not the only element whose constructor can fail. -/
theorem line_init_unknown_style :
    Line.init ⟨0, 0⟩ ⟨1, 1⟩ "zigzag" = none := by
  rfl

/-- C10 (amended): every element constructor except `Window` accepts every
numeric parameter assignment — in particular `Door` is total and stores
`frame_width = (doorway_width - door_width) / 2` even when that is zero or
negative — while `Window` rejects some parameters and `Line` additionally fails
exactly on an unrecognized style string. -/
theorem constructor_totality :
    (∀ (a : Pt) (dw w t θ : ℝ) (r : Bool), ∃ d : Door,
        Door.init a dw w t θ r = some d ∧ d.frame_width = (dw - w) / 2)
    ∧ (∀ (a : Pt) (l t θ : ℝ), (Wall.init a l t θ).isSome)
    ∧ (∀ (a : Pt) (l θ w tl fs : ℝ) (ab : Bool), (DimensionArrow.init a l θ w tl fs ab).isSome)
    ∧ (∀ (a : Pt) (d : ℝ), (CeilingLamp.init a d).isSome)
    ∧ (∀ (a : Pt) (d θ srd : ℝ), (WallLamp.init a d θ srd).isSome)
    ∧ (∀ (a : Pt) (l w θ : ℝ), (LEDStrip.init a l w θ).isSome)
    ∧ (∀ (a : Pt) (sl θ : ℝ) (tk pth : Bool), (Switch.init a sl θ tk pth).isSome)
    ∧ (∀ (a : Pt) (l θ : ℝ) (wp hv lc : Bool), (PowerOutlet.init a l θ wp hv lc).isSome)
    ∧ (∀ (a : Pt) (sl θ : ℝ) (n : ℤ), (ElectricalCable.init a sl θ n).isSome)
    ∧ (∀ vs : List Pt, (Polygon.init vs).isSome)
    ∧ (∀ (a : Pt) (s : String) (θ fs : ℝ), (TextBox.init a s θ fs).isSome)
    ∧ (∃ (a : Pt) (l o s θ : ℝ), Window.init a l o s θ = none)
    ∧ (∀ (p q : Pt) (st : String),
        Line.init p q st = none ↔ style_to_matplotlib_code.lookup st = none) := by
  refine ⟨fun a dw w t θ r => ⟨_, rfl, rfl⟩,
    fun _ _ _ _ => rfl, fun _ _ _ _ _ _ _ => rfl, fun _ _ => rfl, fun _ _ _ _ => rfl,
    fun _ _ _ _ => rfl, fun _ _ _ _ _ => rfl, fun _ _ _ _ _ _ => rfl, fun _ _ _ _ => rfl,
    fun _ => rfl, fun _ _ _ _ => rfl, ⟨⟨0, 0⟩, 1, 1, 1, 0, ?_⟩, ?_⟩
  · simp only [Window.init]
    rw [if_pos (by norm_num)]
  · intro p q st
    rcases h : style_to_matplotlib_code.lookup st with _ | code <;> simp [Line.init, h]

/-- C4 counterexample: for a concrete wall lamp the emitted arc's end angle
minus its start angle is 270 degrees, not 300. -/
theorem wall_lamp_arc_span_not_300 :
    ((WallLamp.draw ⟨⟨0, 0⟩, 1, 0, 0.3⟩)[1]?).bind Primitive.arcSpan = some 270
    ∧ ((WallLamp.draw ⟨⟨0, 0⟩, 1, 0, 0.3⟩)[1]?).bind Primitive.arcSpan ≠ some 300 := by
  constructor
  · simp only [WallLamp.draw, List.getElem?_cons_succ, List.getElem?_cons_zero,
      Option.some_bind, Primitive.arcSpan, RIGHT_ANGLE_IN_DEGREES]
    norm_num
  · simp only [WallLamp.draw, List.getElem?_cons_succ, List.getElem?_cons_zero,
      Option.some_bind, Primitive.arcSpan, RIGHT_ANGLE_IN_DEGREES]
    norm_num

/-- C4 (amended): for every wall lamp and every orientation angle, the emitted
arc primitive's end angle minus its start angle equals
3 · RIGHT_ANGLE_IN_DEGREES = 270 degrees. -/
theorem wall_lamp_arc_span (l : WallLamp) :
    ((WallLamp.draw l)[1]?).bind Primitive.arcSpan = some 270 := by
  simp only [WallLamp.draw, List.getElem?_cons_succ, List.getElem?_cons_zero,
    Option.some_bind, Primitive.arcSpan, RIGHT_ANGLE_IN_DEGREES]
  norm_num

/-- C7: for an LED strip with length at least its width, both positive, `draw`
succeeds and emits one unfilled length-by-width rectangle followed by exactly
`floor(length / width)` circles of radius 0.3 · width (diameter 0.6 · width),
the i-th centered at the anchor plus the rigid rotation by `orientation_angle`
of the pre-rotation center ((2i+1) · length / (2n), width / 2); with length 1.0
and width 0.2 this yields exactly 5 circles (see the witness). -/
theorem led_strip_draw_circles (s : LEDStrip) (h1 : 0 < s.width) (h2 : s.width ≤ s.length) :
    ∃ prims, s.draw = some prims
      ∧ prims.length = 1 + (⌊s.length / s.width⌋).toNat
      ∧ prims[0]? = some (Primitive.rect s.anchor_point s.length s.width s.orientation_angle false)
      ∧ ∀ i : ℕ, i < (⌊s.length / s.width⌋).toNat →
          prims[i + 1]? = some (Primitive.circle
            (s.anchor_point.add (rot (rad s.orientation_angle)
              ⟨(2 * (i : ℝ) + 1) * s.length / (2 * ((⌊s.length / s.width⌋ : ℤ) : ℝ)),
               s.width / 2⟩))
            (0.3 * s.width) false) := by
  have hn : 1 ≤ ⌊s.length / s.width⌋ :=
    Int.le_floor.mpr (by exact_mod_cast (one_le_div h1).mpr h2)
  have hne : ⌊s.length / s.width⌋ ≠ 0 := by omega
  obtain ⟨prims, hprims⟩ : ∃ prims, s.draw = some prims := by
    simp only [LEDStrip.draw]
    rw [if_neg hne]
    exact ⟨_, rfl⟩
  have hp := hprims
  simp only [LEDStrip.draw] at hp
  rw [if_neg hne] at hp
  injection hp with hp
  subst hp
  refine ⟨_, hprims, ?_, ?_, ?_⟩
  · simp only [List.length_cons, List.length_map, List.length_range]
    omega
  · simp
  · intro i hi
    simp only [List.getElem?_cons_succ, List.getElem?_map, List.getElem?_range, hi,
      if_true, Option.map_some', Option.some.injEq, Primitive.circle.injEq]
    refine ⟨?_, ?_⟩
    · ext
      · simp only [Pt.add_x, rot_x, Real.cos_add_pi_div_two]
        ring
      · simp only [Pt.add_y, rot_y, Real.sin_add_pi_div_two]
        ring
    · rw [LEDStrip.circle_diameter_to_width]
      norm_num

/-- Witness for C7 at length 1.0, width 0.2: exactly 5 circles. -/
theorem led_strip_draw_circles_witness :
    (⌊(1 : ℝ) / (0.2 : ℝ)⌋).toNat = 5
    ∧ ∃ prims, LEDStrip.draw ⟨⟨0, 0⟩, 1, 0.2, 0⟩ = some prims
      ∧ prims.length = 1 + (⌊(1 : ℝ) / (0.2 : ℝ)⌋).toNat
      ∧ prims[0]? = some (Primitive.rect ⟨0, 0⟩ 1 0.2 0 false)
      ∧ ∀ i : ℕ, i < (⌊(1 : ℝ) / (0.2 : ℝ)⌋).toNat →
          prims[i + 1]? = some (Primitive.circle
            ((Pt.mk 0 0).add (rot (rad 0)
              ⟨(2 * (i : ℝ) + 1) * 1 / (2 * ((⌊(1 : ℝ) / (0.2 : ℝ)⌋ : ℤ) : ℝ)), 0.2 / 2⟩))
            (0.3 * 0.2) false) := by
  constructor
  · norm_num
    decide
  · exact led_strip_draw_circles ⟨⟨0, 0⟩, 1, 0.2, 0⟩ (by norm_num) (by norm_num)

/-- C1: the `Window` constructor fails exactly when
`overall_thickness - 2 * single_line_thickness ≤ 0` (so the boundary case
fails); on success, `draw` emits exactly two `length` by `single_line_thickness`
rectangles at `orientation_angle`, the second anchored at the first anchor
offset by `overall_thickness - single_line_thickness` along direction
`orientation_angle + 90`, so the facing edges of the two lines are separated by
exactly `overall_thickness - 2 * single_line_thickness`. -/
theorem window_validation_and_draw (a : Pt) (l o s θ : ℝ) :
    (Window.init a l o s θ = none ↔ o - 2 * s ≤ 0)
    ∧ ∀ w : Window, Window.init a l o s θ = some w →
        w.draw = [Primitive.rect a l s θ true,
                  Primitive.rect (pointAt a (o - s) (θ + 90)) l s θ true]
        ∧ (o - s) - s = o - 2 * s := by
  constructor
  · simp only [Window.init]
    by_cases h : o - 2 * s ≤ 0
    · rw [if_pos h]
      simp [h]
    · rw [if_neg h]
      simp [h]
  · intro w hw
    simp only [Window.init] at hw
    by_cases h : o - 2 * s ≤ 0
    · rw [if_pos h] at hw
      exact absurd hw (by simp)
    · rw [if_neg h] at hw
      injection hw with hw
      subst hw
      refine ⟨?_, by ring⟩
      simp only [Window.draw, STRAIGHT_ANGLE_IN_DEGREES]

/-- Witness for C1: a concrete window that passes validation, with its two
emitted rectangles. -/
theorem window_validation_and_draw_witness :
    Window.draw ⟨⟨0, 0⟩, 1, 1, 1 / 4, 0⟩
      = [Primitive.rect ⟨0, 0⟩ 1 (1 / 4) 0 true,
         Primitive.rect (pointAt ⟨0, 0⟩ (1 - 1 / 4) (0 + 90)) 1 (1 / 4) 0 true] := by
  refine ((window_validation_and_draw ⟨0, 0⟩ 1 1 (1 / 4) 0).2 _ ?_).1
  simp only [Window.init]
  rw [if_neg (by norm_num)]

/-- The first and the fourteenth vertex of a dimension arrow's polygon, by
definitional unfolding of the map over the vertex list. -/
lemma dimension_arrow_vertices_head_last (a : DimensionArrow) :
    a.vertices[0]? = some ((rot (rad a.orientation_angle) ⟨0, 0⟩).add a.anchor_point)
    ∧ a.vertices[13]? = some ((rot (rad a.orientation_angle)
        ⟨a.tip_length - Real.sin (rad 30) * a.width,
         -(Real.tan (rad 30) * (a.tip_length - Real.sin (rad 30) * a.width))⟩).add
        a.anchor_point) :=
  ⟨rfl, rfl⟩

/-- C3 counterexample: for a concrete dimension arrow with positive length,
width and tip length, the polygon handed to the surface has 14 vertices, not 13,
and (tip_length being width / 2 here) its first and last vertices coincide. -/
theorem dimension_arrow_13_vertices_refuted :
    (DimensionArrow.vertices ⟨⟨0, 0⟩, 1, 0, 0.2, 0.1, 10, false⟩).length ≠ 13
    ∧ (DimensionArrow.vertices ⟨⟨0, 0⟩, 1, 0, 0.2, 0.1, 10, false⟩)[0]?
        = (DimensionArrow.vertices ⟨⟨0, 0⟩, 1, 0, 0.2, 0.1, 10, false⟩)[13]? := by
  constructor
  · have h14 : (DimensionArrow.vertices ⟨⟨0, 0⟩, 1, 0, 0.2, 0.1, 10, false⟩).length = 14 := rfl
    omega
  · obtain ⟨h0, h13⟩ := dimension_arrow_vertices_head_last ⟨⟨0, 0⟩, 1, 0, 0.2, 0.1, 10, false⟩
    rw [h0, h13]
    have h30 : rad 30 = Real.pi / 6 := by rw [rad]; ring
    congr 1
    ext
    · simp [h30, Real.sin_pi_div_six]
      norm_num
    · simp [h30, Real.sin_pi_div_six]
      norm_num

/-- C3 (amended): for every dimension arrow with positive length, width and tip
length, the filled polygon handed to the surface has exactly 14 vertices; its
first and last vertices are distinct whenever tip_length is not width / 2; the
pre-rotation vertex multiset is symmetric about the shaft baseline y = 0; and
the text label's content is the decimal rendering of `length`. -/
theorem dimension_arrow_polygon (a : DimensionArrow)
    (h1 : 0 < a.length) (h2 : 0 < a.width) (h3 : 0 < a.tip_length) :
    a.vertices.length = 14
    ∧ (a.tip_length ≠ a.width / 2 → a.vertices[0]? ≠ a.vertices[13]?)
    ∧ ((a.initial_vertices.map fun p => (⟨p.x, -p.y⟩ : Pt)).Perm a.initial_vertices)
    ∧ ∃ pos, (a.draw)[1]? = some (Primitive.text pos (TextContent.ofReal a.length)
        a.orientation_angle a.font_size) := by
  obtain ⟨h0, h13⟩ := dimension_arrow_vertices_head_last a
  have h30 : rad 30 = Real.pi / 6 := by rw [rad]; ring
  refine ⟨rfl, ?_, ?_, ⟨_, rfl⟩⟩
  · intro hne heq
    rw [h0, h13] at heq
    injection heq with heq
    have hx := congrArg Pt.x heq
    have hy := congrArg Pt.y heq
    simp only [Pt.add_x, Pt.add_y, rot_x, rot_y] at hx hy
    have hpy := Real.sin_sq_add_cos_sq (rad a.orientation_angle)
    have hT0 : a.tip_length - Real.sin (rad 30) * a.width = 0 := by
      linear_combination
        (-(Real.cos (rad a.orientation_angle))) * hx
        + (-(Real.sin (rad a.orientation_angle))) * hy
        + (-(a.tip_length - Real.sin (rad 30) * a.width)) * hpy
    rw [h30, Real.sin_pi_div_six] at hT0
    apply hne
    linarith
  · have hmap : (a.initial_vertices.map fun p => (⟨p.x, -p.y⟩ : Pt))
        = a.initial_vertices.take 1 ++ (a.initial_vertices.drop 1).reverse := by
      simp only [DimensionArrow.initial_vertices, List.map_cons, List.map_nil, List.take,
        List.drop, List.reverse_cons, List.reverse_nil, List.nil_append, List.cons_append,
        List.append_nil, List.append_assoc, List.cons.injEq, Pt.mk.injEq]
      repeat' apply And.intro
      all_goals ring
    rw [hmap]
    conv_rhs => rw [← List.take_append_drop 1 a.initial_vertices]
    exact List.Perm.append_left _ (List.reverse_perm _)

/-- Witness for C3 at a concrete arrow with length 1, width 0.01, tip length
0.1 and orientation 0. -/
theorem dimension_arrow_polygon_witness :
    (DimensionArrow.vertices ⟨⟨0, 0⟩, 1, 0, 0.01, 0.1, 10, false⟩).length = 14
    ∧ ((0.1 : ℝ) ≠ 0.01 / 2 →
        (DimensionArrow.vertices ⟨⟨0, 0⟩, 1, 0, 0.01, 0.1, 10, false⟩)[0]?
          ≠ (DimensionArrow.vertices ⟨⟨0, 0⟩, 1, 0, 0.01, 0.1, 10, false⟩)[13]?)
    ∧ (((DimensionArrow.initial_vertices ⟨⟨0, 0⟩, 1, 0, 0.01, 0.1, 10, false⟩).map
          fun p => (⟨p.x, -p.y⟩ : Pt)).Perm
        (DimensionArrow.initial_vertices ⟨⟨0, 0⟩, 1, 0, 0.01, 0.1, 10, false⟩))
    ∧ ∃ pos, (DimensionArrow.draw ⟨⟨0, 0⟩, 1, 0, 0.01, 0.1, 10, false⟩)[1]?
        = some (Primitive.text pos (TextContent.ofReal 1) 0 10) :=
  dimension_arrow_polygon ⟨⟨0, 0⟩, 1, 0, 0.01, 0.1, 10, false⟩
    (by norm_num) (by norm_num) (by norm_num)

/-- C5 (amended): for every door parameter set, the complete primitive geometry
produced with to_the_right = true is the mirror image, across the line parallel
to the doorway axis through the point offset from the anchor by thickness / 2
along direction orientation_angle - 90 degrees (the center line of the wall
containing the door), of the geometry produced with to_the_right = false. -/
theorem door_mirror_across_wall_center (d : Door) :
    Set.image
        (reflAcross (pointAt d.anchor_point (d.thickness / 2)
          (d.orientation_angle - STRAIGHT_ANGLE_IN_DEGREES)) d.orientation_angle)
        (geom (Door.draw {d with to_the_right := false}))
      = geom (Door.draw {d with to_the_right := true}) := by
  have hc : pointAt d.anchor_point (d.thickness / 2)
      (d.orientation_angle - STRAIGHT_ANGLE_IN_DEGREES)
      = d.anchor_point.add (rot (rad d.orientation_angle) ⟨0, -(d.thickness / 2)⟩) := by
    rw [pointAt_eq_add_rot, rot_sub_ninety]
  have hfalse : Door.draw {d with to_the_right := false}
      = [Primitive.rect d.anchor_point d.thickness d.frame_width
           (d.orientation_angle - STRAIGHT_ANGLE_IN_DEGREES) true,
         Primitive.rect (pointAt d.anchor_point (d.frame_width + d.door_width)
           d.orientation_angle) d.thickness d.frame_width
           (d.orientation_angle - STRAIGHT_ANGLE_IN_DEGREES) true,
         Primitive.rect (pointAt d.anchor_point d.frame_width d.orientation_angle)
           d.thickness d.door_width d.orientation_angle true,
         Primitive.arc (pointAt (pointAt d.anchor_point d.frame_width d.orientation_angle)
           d.thickness d.orientation_angle)
           (2 * (d.door_width - d.thickness)) (2 * d.door_width)
           d.orientation_angle 0 (STRAIGHT_ANGLE_IN_DEGREES + 2)] := rfl
  have htrue : Door.draw {d with to_the_right := true}
      = [Primitive.rect d.anchor_point d.thickness d.frame_width
           (d.orientation_angle - STRAIGHT_ANGLE_IN_DEGREES) true,
         Primitive.rect (pointAt d.anchor_point (d.frame_width + d.door_width)
           d.orientation_angle) d.thickness d.frame_width
           (d.orientation_angle - STRAIGHT_ANGLE_IN_DEGREES) true,
         Primitive.rect
           ⟨(pointAt d.anchor_point d.frame_width d.orientation_angle).x
              + Real.sin (rad d.orientation_angle) * d.thickness,
            (pointAt d.anchor_point d.frame_width d.orientation_angle).y
              - Real.cos (rad d.orientation_angle) * d.thickness⟩
           d.door_width d.thickness
           (d.orientation_angle - STRAIGHT_ANGLE_IN_DEGREES) true,
         Primitive.arc (pointAt
           ⟨(pointAt d.anchor_point d.frame_width d.orientation_angle).x
              + Real.sin (rad d.orientation_angle) * d.thickness,
            (pointAt d.anchor_point d.frame_width d.orientation_angle).y
              - Real.cos (rad d.orientation_angle) * d.thickness⟩
           d.thickness d.orientation_angle)
           (2 * (d.door_width - d.thickness)) (2 * d.door_width)
           d.orientation_angle (-STRAIGHT_ANGLE_IN_DEGREES - 2) 0] := rfl
  rw [hc, hfalse, htrue]
  simp only [geom, Primitive.points, pointAt_eq_add_rot, hinge_shift_eq, add_rot_add_rot,
    Pt.add_mk, add_zero, zero_add]
  rw [Set.image_union, Set.image_union, Set.image_union, Set.image_union, Set.image_empty]
  rw [mirror_frame_rect, mirror_frame_rect_shifted, mirror_leaf_rect, mirror_arc]

/-- C5 counterexample: for a concrete door (anchor (0,0), doorway width 3, door
width 2, thickness 1, orientation 0), the geometry produced with
to_the_right = true is not the mirror image across the doorway axis itself (the
line through the anchor at the orientation angle) of the geometry produced with
to_the_right = false. -/
theorem door_mirror_doorway_axis_refuted :
    Set.image (reflAcross ⟨0, 0⟩ 0)
        (geom (Door.draw ⟨⟨0, 0⟩, 3, 2, 0.5, 1, 0, false⟩))
      ≠ geom (Door.draw ⟨⟨0, 0⟩, 3, 2, 0.5, 1, 0, true⟩) := by
  have h90 : rad STRAIGHT_ANGLE_IN_DEGREES = Real.pi / 2 := by
    rw [STRAIGHT_ANGLE_IN_DEGREES, rad]
    ring
  have hM : ∀ p : Pt, reflAcross ⟨0, 0⟩ 0 p = ⟨p.x, -p.y⟩ := by
    intro p
    ext <;> simp [reflAcross] <;> ring
  have htrue : Door.draw ⟨⟨0, 0⟩, 3, 2, 0.5, 1, 0, true⟩
      = [Primitive.rect ⟨0, 0⟩ 1 0.5 (0 - STRAIGHT_ANGLE_IN_DEGREES) true,
         Primitive.rect (pointAt ⟨0, 0⟩ (0.5 + 2) 0) 1 0.5
           (0 - STRAIGHT_ANGLE_IN_DEGREES) true,
         Primitive.rect
           ⟨(pointAt ⟨0, 0⟩ 0.5 0).x + Real.sin (rad 0) * 1,
            (pointAt ⟨0, 0⟩ 0.5 0).y - Real.cos (rad 0) * 1⟩ 2 1
           (0 - STRAIGHT_ANGLE_IN_DEGREES) true,
         Primitive.arc (pointAt
           ⟨(pointAt ⟨0, 0⟩ 0.5 0).x + Real.sin (rad 0) * 1,
            (pointAt ⟨0, 0⟩ 0.5 0).y - Real.cos (rad 0) * 1⟩ 1 0)
           (2 * (2 - 1)) (2 * 2) 0 (-STRAIGHT_ANGLE_IN_DEGREES - 2) 0] := rfl
  have hfalse : Door.draw ⟨⟨0, 0⟩, 3, 2, 0.5, 1, 0, false⟩
      = [Primitive.rect ⟨0, 0⟩ 1 0.5 (0 - STRAIGHT_ANGLE_IN_DEGREES) true,
         Primitive.rect (pointAt ⟨0, 0⟩ (0.5 + 2) 0) 1 0.5
           (0 - STRAIGHT_ANGLE_IN_DEGREES) true,
         Primitive.rect (pointAt ⟨0, 0⟩ 0.5 0) 1 2 0 true,
         Primitive.arc (pointAt (pointAt ⟨0, 0⟩ 0.5 0) 1 0)
           (2 * (2 - 1)) (2 * 2) 0 0 (STRAIGHT_ANGLE_IN_DEGREES + 2)] := rfl
  intro hEq
  have hmem : (⟨0.5, -3⟩ : Pt) ∈ geom (Door.draw ⟨⟨0, 0⟩, 3, 2, 0.5, 1, 0, true⟩) := by
    rw [htrue]
    simp only [geom, Set.mem_union, Primitive.points]
    refine Or.inr (Or.inr (Or.inl ?_))
    refine ⟨2, 0, by norm_num, by norm_num, le_refl 0, by norm_num, ?_⟩
    ext
    · simp [pointAt, h90, Real.cos_pi_div_two, Real.sin_pi_div_two]
    · simp [pointAt, h90, Real.cos_pi_div_two, Real.sin_pi_div_two]
      norm_num
  rw [← hEq] at hmem
  obtain ⟨q, hq, hMq⟩ := hmem
  rw [hM q] at hMq
  have hqx : q.x = 0.5 := congrArg Pt.x hMq
  have hqy : q.y = 3 := by
    have := congrArg Pt.y hMq
    simp only at this
    linarith
  rw [hfalse] at hq
  simp only [geom, Set.mem_union, Set.mem_empty_iff_false, or_false,
    Primitive.points] at hq
  rcases hq with h | h | h | h
  · obtain ⟨u, v, h1, h2, h3, h4, hpq⟩ := h
    have := congrArg Pt.y hpq
    simp [h90, Real.cos_pi_div_two, Real.sin_pi_div_two] at this
    linarith
  · obtain ⟨u, v, h1, h2, h3, h4, hpq⟩ := h
    have := congrArg Pt.y hpq
    simp [pointAt, h90, Real.cos_pi_div_two, Real.sin_pi_div_two] at this
    linarith
  · obtain ⟨u, v, h1, h2, h3, h4, hpq⟩ := h
    have := congrArg Pt.y hpq
    simp [pointAt] at this
    linarith
  · obtain ⟨s, h1, h2, hpq⟩ := h
    have hs1 := Real.sin_le_one s
    have := congrArg Pt.y hpq
    simp [pointAt] at this
    linarith

end

end Renovation
